import Mathlib

/-!
Verification development for the brain-mcp conversation-memory server.
The definitions below are a shallow embedding of `src/storage.ts`,
`src/consolidation.ts` and the tool handlers of the server entry point.
Database tables are lists of rows; every SQL query of the source is
translated to an explicit list computation; JavaScript truthiness tests
(`if (filters.query)` and friends) are translated by explicit truthiness
helpers; the external LLM call is a black-box input (its parsed JSON
response, or `none` for an unparseable response); fallible operations
return explicit outcomes.
-/

namespace BrainMCP

/-- Row of the `conversations` table (storage.ts, CREATE TABLE at lines
120-129): id, timestamp (epoch milliseconds, modelled as Int), role,
content, conversation_id, consolidated (DEFAULT FALSE). -/
structure ConversationRow where
  id : String
  timestamp : Int
  role : String
  content : String
  conversationId : String
  consolidated : Bool
deriving Repr, DecidableEq

/-- Row of the `long_term_memory` table (storage.ts lines 151-160).
The `topics` and `key_insights` columns are TEXT holding a
JSON-serialized list of strings; we keep the list and serialize it with
`jsonStringifyStrings` exactly where the source serializes
(`JSON.stringify`) or matches against the serialized text (LIKE). -/
structure LongTermRow where
  id : String
  timestamp : Int
  summary : String
  topics : List String
  keyInsights : List String
  consolidatedFrom : String
deriving Repr, DecidableEq

/-- The SearchFilters value object (storage.ts lines 25-31). All fields
are optional, mirroring the TypeScript optional fields. -/
structure SearchFilters where
  query : Option String
  topics : Option (List String)
  startDate : Option Int
  endDate : Option Int
  limit : Option Nat
deriving Repr

/-- JavaScript truthiness of an optional string: `undefined` and the
empty string are falsy (used by `if (filters.query)`). -/
def strTruthy : Option String → Bool
  | none => false
  | some s => decide (s ≠ "")

/-- JavaScript truthiness of an optional integer: `undefined` and `0`
are falsy (used by `if (filters.startDate)` / `if (filters.endDate)`). -/
def intTruthy : Option Int → Bool
  | none => false
  | some v => decide (v ≠ 0)

/-- JavaScript truthiness of an optional natural: `undefined` and `0`
are falsy (used by `if (filters.limit)`). -/
def natTruthy : Option Nat → Bool
  | none => false
  | some n => decide (n ≠ 0)

/-- Does `hay` start with `pat` (character lists)? -/
def listStartsWith : List Char → List Char → Bool
  | _, [] => true
  | [], _ :: _ => false
  | h :: t, p :: ps => h == p && listStartsWith t ps

/-- Does `pat` occur as a contiguous run inside `hay` (character lists)? -/
def listHasSub (hay pat : List Char) : Bool :=
  match hay with
  | [] => pat.isEmpty
  | _ :: t => listStartsWith hay pat || listHasSub t pat

/-- Case-insensitive substring containment, the semantics of the SQL
`LOWER(col) LIKE LOWER(CONCAT(PERCENT, pat, PERCENT))` conditions of the
source for pattern text free of LIKE wildcard characters (lowercasing
is per character, as SQL LOWER on ASCII text). -/
def containsCI (hay pat : String) : Bool :=
  listHasSub (hay.toList.map Char.toLower) (pat.toList.map Char.toLower)

/-- Escape of a character for a JSON string literal (quote and
backslash; control-character escapes are not needed by the stored
topic and insight strings considered here). -/
def jsonEscapeChar (c : Char) : List Char :=
  if c == '\\' then ['\\', '\\']
  else if c == '"' then ['\\', '"']
  else [c]

/-- JSON serialization of a list of strings, as produced by
`JSON.stringify(topics)` in storeLongTermMemory (storage.ts line 290). -/
def jsonStringifyStrings (xs : List String) : String :=
  "[" ++ String.intercalate ","
    (xs.map (fun s => "\"" ++ String.mk (s.toList.flatMap jsonEscapeChar) ++ "\"")) ++ "]"

/-- Insert keeping a list sorted descending by `key` (stable: an element
is placed before later elements with an equal key). -/
def insertDesc (key : α → Int) (x : α) : List α → List α
  | [] => [x]
  | y :: ys => if key y ≤ key x then x :: y :: ys else y :: insertDesc key x ys

/-- Stable sort descending by `key`: the `ORDER BY timestamp DESC` of
the source queries. -/
def sortDesc (key : α → Int) : List α → List α
  | [] => []
  | x :: xs => insertDesc key x (sortDesc key xs)

/-- Insert keeping a list sorted ascending by `key` (stable). -/
def insertAsc (key : α → Int) (x : α) : List α → List α
  | [] => [x]
  | y :: ys => if key x ≤ key y then x :: y :: ys else y :: insertAsc key x ys

/-- Stable sort ascending by `key`: the `ORDER BY timestamp ASC` of the
source queries. -/
def sortAsc (key : α → Int) : List α → List α
  | [] => []
  | x :: xs => insertAsc key x (sortAsc key xs)

/-- The trailing `LIMIT ?` clause: applied only when the limit filter is
truthy (`if (filters.limit)`, storage.ts lines 376-379 and 427-430). -/
def applyLimit (l : Option Nat) (xs : List α) : List α :=
  if natTruthy l then xs.take (l.getD 0) else xs

/-- Predicate of searchConversations (storage.ts lines 353-371): text
condition on `content` when the query is truthy, inclusive timestamp
bounds when the corresponding date is truthy. The topics filter is not
consulted anywhere in this function. -/
def convMatches (f : SearchFilters) (c : ConversationRow) : Bool :=
  (if strTruthy f.query then containsCI c.content (f.query.getD "") else true) &&
  (if intTruthy f.startDate then decide (f.startDate.getD 0 ≤ c.timestamp) else true) &&
  (if intTruthy f.endDate then decide (c.timestamp ≤ f.endDate.getD 0) else true)

/-- searchConversations (storage.ts lines 348-390): filter, order by
timestamp descending, then apply the limit clause when truthy. -/
def searchConversations (tbl : List ConversationRow) (f : SearchFilters) : List ConversationRow :=
  applyLimit f.limit (sortDesc (fun c => c.timestamp) (tbl.filter (convMatches f)))

/-- Predicate of searchLongTermMemories (storage.ts lines 397-422): text
condition on `summary` or the serialized `key_insights` column; topic
condition only when the topics list is present and non-empty, and then
the LIKE parameter wraps each requested topic in double quotes
(`params.push` of a percent-quote-topic-quote-percent pattern, line
410); inclusive timestamp bounds when truthy. -/
def ltmMatches (f : SearchFilters) (m : LongTermRow) : Bool :=
  (if strTruthy f.query then
      containsCI m.summary (f.query.getD "") ||
      containsCI (jsonStringifyStrings m.keyInsights) (f.query.getD "")
    else true) &&
  (match f.topics with
    | some ts =>
        if 0 < ts.length then
          ts.any (fun t => containsCI (jsonStringifyStrings m.topics) ("\"" ++ t ++ "\""))
        else true
    | none => true) &&
  (if intTruthy f.startDate then decide (f.startDate.getD 0 ≤ m.timestamp) else true) &&
  (if intTruthy f.endDate then decide (m.timestamp ≤ f.endDate.getD 0) else true)

/-- searchLongTermMemories (storage.ts lines 392-442): filter, order by
timestamp descending, then apply the limit clause when truthy. -/
def searchLongTermMemories (tbl : List LongTermRow) (f : SearchFilters) : List LongTermRow :=
  applyLimit f.limit (sortDesc (fun m => m.timestamp) (tbl.filter (ltmMatches f)))

/-- The tool-layer limit computation of the search_memory handler
(`Math.min(Math.max(limit, 1), 100)` with default 20, index entry point
lines 1092 and 1111). -/
def searchMemoryLimit (l : Option Nat) : Nat :=
  min (max (l.getD 20) 1) 100

/-- The WHERE predicate shared by getTodaysConversations (storage.ts
line 258) and markConversationsAsConsolidated (lines 457, 465):
`timestamp >= startOfDay AND consolidated = FALSE`. -/
def unconsolidatedSince (startTimestamp : Int) (c : ConversationRow) : Bool :=
  decide (startTimestamp ≤ c.timestamp) && !c.consolidated

/-- getTodaysConversations (storage.ts lines 246-269): unconsolidated
rows with timestamp at or after the start-of-day instant, ascending by
timestamp. The start-of-day timestamp (local midnight computed at call
time) is a parameter of the model. -/
def getTodaysConversations (tbl : List ConversationRow) (startTimestamp : Int) :
    List ConversationRow :=
  sortAsc (fun c => c.timestamp) (tbl.filter (unconsolidatedSince startTimestamp))

/-- markConversationsAsConsolidated (storage.ts lines 444-471): counts
the rows satisfying the window predicate, then sets `consolidated` to
TRUE on exactly those rows; returns the count and the updated table. -/
def markConversationsAsConsolidated (tbl : List ConversationRow) (startTimestamp : Int) :
    Nat × List ConversationRow :=
  ((tbl.filter (unconsolidatedSince startTimestamp)).length,
   tbl.map (fun c =>
     if unconsolidatedSince startTimestamp c then { c with consolidated := true } else c))

/-- clearShortTermMemory (storage.ts lines 473-488): reads COUNT of all
conversation rows, deletes every row unconditionally, returns the prior
count together with the (empty) resulting table. -/
def clearShortTermMemory (tbl : List ConversationRow) : Nat × List ConversationRow :=
  (tbl.length, [])

/-- getLongTermMemories (storage.ts lines 326-346): long-term rows
ordered descending by timestamp, truncated to `limit`. -/
def getLongTermMemories (tbl : List LongTermRow) (limit : Nat) : List LongTermRow :=
  (sortDesc (fun m => m.timestamp) tbl).take limit

/-- Constructor for the row inserted by storeLongTermMemory (storage.ts
lines 271-296); the fresh id and the `Date.now()` timestamp are
parameters of the model. -/
def mkLongTermRow (idS : String) (ts : Int) (summary : String)
    (topics keyInsights : List String) (consolidatedFrom : String) : LongTermRow :=
  { id := idS, timestamp := ts, summary := summary, topics := topics,
    keyInsights := keyInsights, consolidatedFrom := consolidatedFrom }

/-- The two persisted tables owned by the StorageManager. -/
structure Store where
  conversations : List ConversationRow
  longTerm : List LongTermRow
deriving Repr, DecidableEq

/-- Shallow model of a parsed JSON value, rich enough for the payloads
handled by performConsolidation; arrays are modelled at the shape the
consolidator consumes (arrays of strings). -/
inductive JsonValue where
  | jnull : JsonValue
  | jbool : Bool → JsonValue
  | jnum : Int → JsonValue
  | jstr : String → JsonValue
  | jarrStr : List String → JsonValue
  | jobj : List (String × JsonValue) → JsonValue

/-- Lookup of an object field, modelling JavaScript property access. -/
def lookupField : List (String × JsonValue) → String → Option JsonValue
  | [], _ => none
  | (k2, v) :: rest, k => if k2 == k then some v else lookupField rest k

/-- Property access on an arbitrary value: `undefined` off non-objects. -/
def jsGet (v : JsonValue) (k : String) : Option JsonValue :=
  match v with
  | .jobj fields => lookupField fields k
  | _ => none

/-- JavaScript truthiness of a JSON value (empty string, zero, null
falsy; arrays and objects truthy). -/
def jsonTruthy : JsonValue → Bool
  | .jnull => false
  | .jbool b => b
  | .jnum n => decide (n ≠ 0)
  | .jstr s => decide (s ≠ "")
  | .jarrStr _ => true
  | .jobj _ => true

/-- JavaScript string coercion of a JSON value (only the string case is
exercised by well-typed collaborator responses). -/
def jsToString : JsonValue → String
  | .jnull => "null"
  | .jbool b => if b then "true" else "false"
  | .jnum n => toString n
  | .jstr s => s
  | .jarrStr xs => String.intercalate "," xs
  | .jobj _ => "[object Object]"

/-- The `Array.isArray` test of consolidation.ts lines 136-137. -/
def isStringArray : JsonValue → Bool
  | .jarrStr _ => true
  | _ => false

/-- The coercion applied to the `topics` and `keyInsights` fields
(consolidation.ts lines 136-137): an array passes through, anything
else (absent field included) is coerced to the empty list. -/
def coerceStringList : Option JsonValue → List String
  | some (.jarrStr xs) => xs
  | _ => []

/-- Outcome of performConsolidation (consolidation.ts lines 72-77). -/
structure ConsolidatedMemory where
  summary : String
  topics : List String
  keyInsights : List String
  consolidatedFrom : String
deriving Repr, DecidableEq

/-- The safe default substituted when the collaborator response is not
parseable as JSON (consolidation.ts lines 125-129). -/
def parseFailureDefault : JsonValue :=
  .jobj [("summary", .jstr "Failed to parse consolidation response"),
         ("topics", .jarrStr []),
         ("keyInsights", .jarrStr [])]

/-- performConsolidation (consolidation.ts lines 69-140), modelled from
the JSON.parse result of the collaborator response onward (`none` is an
unparseable response; the transcript and long-term context only shape
the prompt and do not influence this post-processing). Summary falls
back to a fixed string when the field is falsy, and the two list fields
go through the `Array.isArray` coercion. `todayStr` is the calendar
date of the invocation instant. -/
def performConsolidation (parsed? : Option JsonValue) (todayStr : String) :
    ConsolidatedMemory :=
  let parsed := parsed?.getD parseFailureDefault
  { summary :=
      match jsGet parsed "summary" with
      | some v => if jsonTruthy v then jsToString v else "No summary generated"
      | none => "No summary generated",
    topics := coerceStringList (jsGet parsed "topics"),
    keyInsights := coerceStringList (jsGet parsed "keyInsights"),
    consolidatedFrom := "Conversations from " ++ todayStr }

/-- Result of one consolidation cycle: the store after the cycle and
the raised error, if any (the source rethrows the error to its caller,
consolidation.ts lines 63-66). -/
structure ConsolidateOutcome where
  store : Store
  error : Option String
deriving Repr, DecidableEq

/-- MemoryConsolidator.consolidate (consolidation.ts lines 24-67):
select the unconsolidated window (early successful return when empty,
lines 31-34), read up to 20 prior long-term memories for prompt context
(line 39, read-only), build the consolidated memory from the
collaborator response, then write the long-term entry
(storeLongTermMemory, line 49) and only afterwards mark the window
consolidated (line 59). `putOk` models whether the awaited long-term
write succeeds; on failure the error propagates and the mark step is
never reached. -/
def consolidate (st : Store) (todayStart : Int) (llmParse : Option JsonValue)
    (putOk : Bool) (newId : String) (now : Int) (todayStr : String) : ConsolidateOutcome :=
  if getTodaysConversations st.conversations todayStart = [] then
    { store := st, error := none }
  else
    let mem := performConsolidation llmParse todayStr
    if putOk then
      let newEntry := mkLongTermRow newId now mem.summary mem.topics mem.keyInsights
        mem.consolidatedFrom
      let afterPut : Store := { st with longTerm := st.longTerm ++ [newEntry] }
      let marked := markConversationsAsConsolidated afterPut.conversations todayStart
      { store := { afterPut with conversations := marked.2 }, error := none }
    else
      { store := st, error := some "Failed to store long-term memory" }

/-- Shape of an SQL SELECT as far as the aggregate and DISTINCT binder
rules are concerned: whether it is DISTINCT, its bare (non-aggregated)
selected columns, its GROUP BY columns, its ORDER BY expressions and
whether any of those is an aggregate. -/
structure AggQueryShape where
  distinct : Bool
  bareSelectCols : List String
  groupByCols : List String
  orderByExprs : List String
  orderByHasAggregate : Bool

/-- The binder rules of the backing SQL engine relevant here (standard
SQL aggregate rules, enforced by the DuckDB binder): an aggregate
anywhere in the query with no GROUP BY turns it into a one-group
aggregate query in which bare selected columns are ill-formed; and for
SELECT DISTINCT every ORDER BY expression must appear in the select
list. -/
def aggregateQueryOk (q : AggQueryShape) : Bool :=
  (!(q.orderByHasAggregate && q.groupByCols.isEmpty) || q.bareSelectCols.isEmpty) &&
  (!q.distinct || q.orderByExprs.all (fun e => q.bareSelectCols.contains e))

/-- Shape of the first query of getLastNConversations (storage.ts lines
215-220): SELECT DISTINCT conversation_id FROM conversations ORDER BY
MAX(timestamp) DESC LIMIT n. It has an aggregate in ORDER BY, no GROUP
BY, and a bare DISTINCT column, and its ORDER BY expression is not in
the select list. -/
def lastNConversationIdsQuery : AggQueryShape :=
  { distinct := true, bareSelectCols := ["conversation_id"], groupByCols := [],
    orderByExprs := ["max(timestamp)"], orderByHasAggregate := true }

/-- Error raised by the backing engine when binding the first query of
getLastNConversations. -/
def duckdbBinderMsg : String :=
  "Binder Error: aggregate ORDER BY over a bare DISTINCT column without GROUP BY"

/-- Distinct conversation ids in first-appearance order. -/
def distinctSessionIds (tbl : List ConversationRow) : List String :=
  (tbl.map (fun c => c.conversationId)).eraseDups

/-- Maximum of a list of timestamps (0 for the empty list, which never
arises for ids drawn from the table). -/
def maxTimestamp : List Int → Int
  | [] => 0
  | t :: ts => ts.foldl max t

/-- Activity of a session: the maximum timestamp among its messages. -/
def sessionActivity (tbl : List ConversationRow) (sid : String) : Int :=
  maxTimestamp ((tbl.filter (fun c => c.conversationId == sid)).map (fun c => c.timestamp))

/-- The second query of getLastNConversations (storage.ts lines
230-235): all messages of the given conversations, ascending by
timestamp. -/
def conversationsFor (tbl : List ConversationRow) (ids : List String) : List ConversationRow :=
  sortAsc (fun c => c.timestamp) (tbl.filter (fun c => ids.contains c.conversationId))

/-- The recentSessions(n) semantics stated by the spec (spec.md section
4.1): the n most-recently-active distinct session ids (activity = max
timestamp within the session) most-recent first, and their messages
ascending by timestamp. This is the reading the first query of
getLastNConversations was aiming for (it lacks the GROUP BY needed to
express it). -/
def recentSessionsSpec (tbl : List ConversationRow) (n : Nat) : List ConversationRow :=
  conversationsFor tbl ((sortDesc (sessionActivity tbl) (distinctSessionIds tbl)).take n)

/-- getLastNConversations (storage.ts lines 209-244). Its first query
is submitted to the backing engine, whose binder rejects it
(aggregateQueryOk is false on its shape), so the promise rejects and
the call raises for every table state; had the binder accepted the
intended grouped reading, the function would return the spec
semantics. -/
def getLastNConversations (tbl : List ConversationRow) (n : Nat) :
    Except String (List ConversationRow) :=
  if aggregateQueryOk lastNConversationIdsQuery then
    .ok (recentSessionsSpec tbl n)
  else
    .error duckdbBinderMsg

/-- Program counter of one in-flight consolidation cycle, decomposed at
the awaited store mutations of consolidate (Node executes the code
between awaits atomically): about to select the window (line 29), about
to write the long-term entry (line 49), about to mark the window
consolidated (line 59), or finished. The context fetch and the
collaborator call between select and put touch no store state. -/
inductive CyclePC where
  | atSelect : CyclePC
  | atPut : CyclePC
  | atMark : CyclePC
  | done : CyclePC
deriving Repr, DecidableEq

/-- Local state of one in-flight cycle: its program counter and the
window it selected. -/
structure CycleTask where
  pc : CyclePC
  selected : List ConversationRow
deriving Repr, DecidableEq

/-- Inputs fixed for the duration of the race: the shared window
anchor and, for each of the two triggers, the collaborator response, fresh id and write
instant, and the calendar date string. -/
structure CycleEnv where
  todayStart : Int
  llmParse : Option JsonValue
  todayStr : String
  id1 : String
  id2 : String
  now1 : Int
  now2 : Int

/-- One atomic step of an in-flight cycle against the shared store,
exactly the effect of the next awaited storage call of consolidate. -/
def stepCycle (env : CycleEnv) (first : Bool) (st : Store) (t : CycleTask) :
    Store × CycleTask :=
  match t.pc with
  | .atSelect =>
      let sel := getTodaysConversations st.conversations env.todayStart
      if sel = [] then (st, { pc := .done, selected := [] })
      else (st, { pc := .atPut, selected := sel })
  | .atPut =>
      let mem := performConsolidation env.llmParse env.todayStr
      let row := mkLongTermRow (if first then env.id1 else env.id2)
        (if first then env.now1 else env.now2) mem.summary mem.topics mem.keyInsights
        mem.consolidatedFrom
      ({ st with longTerm := st.longTerm ++ [row] }, { t with pc := .atMark })
  | .atMark =>
      let marked := markConversationsAsConsolidated st.conversations env.todayStart
      ({ st with conversations := marked.2 }, { t with pc := .done })
  | .done => (st, t)

/-- Shared state of two concurrently triggered cycles (the timer-driven
one and the on-demand one) in a single process. -/
structure TwoCycles where
  store : Store
  t1 : CycleTask
  t2 : CycleTask
deriving Repr, DecidableEq

/-- Advance the chosen cycle by one atomic step. -/
def stepSystem (env : CycleEnv) (which : Bool) (s : TwoCycles) : TwoCycles :=
  if which then
    let r := stepCycle env true s.store s.t1
    { s with store := r.1, t1 := r.2 }
  else
    let r := stepCycle env false s.store s.t2
    { s with store := r.1, t2 := r.2 }

/-- Run a schedule (a choice of which cycle advances at each step). -/
def runSched (env : CycleEnv) (sched : List Bool) (s : TwoCycles) : TwoCycles :=
  sched.foldl (fun acc b => stepSystem env b acc) s

/-- A concrete message used in the concrete evaluations below. -/
def demoMsg : ConversationRow :=
  { id := "sessA-100-0", timestamp := 5, role := "user", content := "hello",
    conversationId := "sessA", consolidated := false }

/-- A well-formed collaborator response used in the race trace. -/
def demoLlmResponse : JsonValue :=
  .jobj [("summary", .jstr "talked about duckdb"),
         ("topics", .jarrStr ["duckdb"]),
         ("keyInsights", .jarrStr ["likes databases"])]

/-- Race environment: both triggers see the same day window. -/
def raceEnv : CycleEnv :=
  { todayStart := 0, llmParse := some demoLlmResponse, todayStr := "2025-01-01",
    id1 := "ltm-100-1", id2 := "ltm-101-2", now1 := 100, now2 := 101 }

/-- Initial state of the race: one unconsolidated message from today,
both triggers about to select. -/
def raceStart : TwoCycles :=
  { store := { conversations := [demoMsg], longTerm := [] },
    t1 := { pc := .atSelect, selected := [] },
    t2 := { pc := .atSelect, selected := [] } }

/-- The interleaving in which the second trigger selects before the
first trigger marks: select 1, select 2, put 1, mark 1, put 2, mark 2. -/
def raceResult : TwoCycles :=
  runSched raceEnv [true, false, true, true, false, false] raceStart

/-- A long-term entry whose stored topic is the single word database. -/
def dbEntry : LongTermRow :=
  { id := "ltm-1", timestamp := 10, summary := "about storage",
    topics := ["database"], keyInsights := [], consolidatedFrom := "x" }

/-- The all-absent filter (every field undefined). -/
def emptyFilter : SearchFilters :=
  { query := none, topics := none, startDate := none, endDate := none, limit := none }

/-- A conversation row with timestamp 1, used for the zero-end-date
counterexample. -/
def tsOneMsg : ConversationRow :=
  { id := "m1", timestamp := 1, role := "user", content := "hello",
    conversationId := "s", consolidated := false }

/-- A table of 101 conversation rows, more than the documented
engine-wide default cap (20) and even its documented maximum (100). -/
def manyRows : List ConversationRow :=
  (List.range 101).map (fun i =>
    { id := toString i, timestamp := (i : Int), role := "user", content := "m",
      conversationId := "s", consolidated := false })

/-- A concrete store with one unconsolidated message from today. -/
def demoStore : Store :=
  { conversations := [demoMsg], longTerm := [] }

theorem mem_insertDesc (key : α → Int) (x a : α) (l : List α) :
    a ∈ insertDesc key x l ↔ a = x ∨ a ∈ l := by
  induction l with
  | nil => simp [insertDesc]
  | cons y ys ih =>
      by_cases h : key y ≤ key x
      · simp [insertDesc, h]
      · simp only [insertDesc, if_neg h, List.mem_cons, ih]
        tauto

theorem mem_sortDesc (key : α → Int) (a : α) (l : List α) :
    a ∈ sortDesc key l ↔ a ∈ l := by
  induction l with
  | nil => simp [sortDesc]
  | cons x xs ih => simp [sortDesc, mem_insertDesc, ih]

theorem length_insertDesc (key : α → Int) (x : α) (l : List α) :
    (insertDesc key x l).length = l.length + 1 := by
  induction l with
  | nil => rfl
  | cons y ys ih =>
      by_cases h : key y ≤ key x
      · simp [insertDesc, h]
      · simp only [insertDesc, if_neg h, List.length_cons, ih]

theorem length_sortDesc (key : α → Int) (l : List α) :
    (sortDesc key l).length = l.length := by
  induction l with
  | nil => rfl
  | cons x xs ih => simp [sortDesc, length_insertDesc, ih]

theorem applyLimit_none (xs : List α) : applyLimit none xs = xs := rfl

theorem convMatches_empty (c : ConversationRow) : convMatches emptyFilter c = true := rfl

theorem search_empty_filter_eq (tbl : List ConversationRow) :
    searchConversations tbl emptyFilter = sortDesc (fun c => c.timestamp) tbl := by
  unfold searchConversations
  rw [List.filter_eq_self.mpr (fun a _ => convMatches_empty a)]
  rfl

theorem mark_consolidates_window (tbl : List ConversationRow) (ts : Int)
    (c : ConversationRow) (hc : c ∈ (markConversationsAsConsolidated tbl ts).2)
    (hts : ts ≤ c.timestamp) : c.consolidated = true := by
  unfold markConversationsAsConsolidated at hc
  simp only [List.mem_map] at hc
  obtain ⟨a, _, hEq⟩ := hc
  subst hEq
  by_cases hg : unconsolidatedSince ts a = true
  · simp [hg]
  · rw [if_neg hg] at hts ⊢
    simp [unconsolidatedSince, hts] at hg
    exact hg

theorem coerce_nonarray (v : JsonValue) (hv : isStringArray v = false) :
    coerceStringList (some v) = [] := by
  cases v <;> simp_all [coerceStringList, isStringArray]

/-- C1 counterexample: the requested topic data IS a case-insensitive
substring of the serialized topics list of an entry whose stored topic
is database, yet the long-term search does not return the entry (the
LIKE parameter wraps the requested topic in double quotes); moreover
the example given by the claim is impossible even under plain substring
semantics, since db is not a substring of database at all. -/
theorem ltm_topic_substring_refuted :
    containsCI (jsonStringifyStrings dbEntry.topics) "data" = true ∧
    searchLongTermMemories [dbEntry]
      { query := none, topics := some ["data"], startDate := none, endDate := none,
        limit := none } = [] ∧
    containsCI "database" "db" = false := by
  decide

/-- C1 (amended): with a non-empty requested topic list and no other
filters, a stored long-term entry is returned exactly when some
requested topic, wrapped in double quotes, is a case-insensitive
substring of the serialized topics list — case-insensitive exact
membership for ordinary topic strings, not bare substring matching. -/
theorem ltm_topic_filter_quoted_membership (tbl : List LongTermRow) (ts : List String)
    (m : LongTermRow) (hne : ts ≠ []) :
    (m ∈ searchLongTermMemories tbl
        { query := none, topics := some ts, startDate := none, endDate := none,
          limit := none } ↔
      m ∈ tbl ∧
      ts.any (fun t => containsCI (jsonStringifyStrings m.topics) ("\"" ++ t ++ "\""))
        = true) := by
  have hpos : 0 < ts.length := List.length_pos.mpr hne
  have hm : ∀ x : LongTermRow,
      ltmMatches ⟨none, some ts, none, none, none⟩ x =
        ts.any (fun t => containsCI (jsonStringifyStrings x.topics) ("\"" ++ t ++ "\"")) := by
    intro x
    simp [ltmMatches, strTruthy, intTruthy, hpos]
  simp only [searchLongTermMemories, applyLimit_none, mem_sortDesc, List.mem_filter, hm]

/-- Witness for the amended C1 theorem: a requested topic equal to a
stored topic up to case does match. -/
theorem ltm_topic_filter_quoted_membership_witness :
    (["DATABASE"] ≠ ([] : List String)) ∧
    (dbEntry ∈ searchLongTermMemories [dbEntry]
        { query := none, topics := some ["DATABASE"], startDate := none, endDate := none,
          limit := none } ↔
      dbEntry ∈ [dbEntry] ∧
      (["DATABASE"].any (fun t =>
        containsCI (jsonStringifyStrings dbEntry.topics) ("\"" ++ t ++ "\""))) = true) :=
  ⟨by decide, ltm_topic_filter_quoted_membership [dbEntry] ["DATABASE"] dbEntry (by decide)⟩

/-- C2 (confirmed): when the long-term write of a non-empty
consolidation cycle fails, the cycle raises the error, the store is
unchanged (no consolidated flag flipped), and a retry re-selects the
same unconsolidated window. -/
theorem consolidate_commit_failure_no_consume (st : Store) (todayStart : Int)
    (llmParse : Option JsonValue) (newId : String) (now : Int) (todayStr : String)
    (h : getTodaysConversations st.conversations todayStart ≠ []) :
    (consolidate st todayStart llmParse false newId now todayStr).error =
      some "Failed to store long-term memory" ∧
    (consolidate st todayStart llmParse false newId now todayStr).store = st ∧
    getTodaysConversations
        (consolidate st todayStart llmParse false newId now todayStr).store.conversations
        todayStart =
      getTodaysConversations st.conversations todayStart := by
  unfold consolidate
  rw [if_neg h]
  exact ⟨rfl, rfl, rfl⟩

/-- Witness for the C2 theorem at a concrete one-message store. -/
theorem consolidate_commit_failure_no_consume_witness :
    getTodaysConversations demoStore.conversations 0 ≠ [] ∧
    ((consolidate demoStore 0 none false "ltm-9" 50 "2025-01-01").error =
      some "Failed to store long-term memory" ∧
    (consolidate demoStore 0 none false "ltm-9" 50 "2025-01-01").store = demoStore ∧
    getTodaysConversations
        (consolidate demoStore 0 none false "ltm-9" 50 "2025-01-01").store.conversations 0 =
      getTodaysConversations demoStore.conversations 0) :=
  ⟨by decide, consolidate_commit_failure_no_consume demoStore 0 none "ltm-9" 50 "2025-01-01"
    (by decide)⟩

/-- C3 (code bug): the first query of getLastNConversations is rejected
by the SQL binder for every table state (aggregate ORDER BY over a bare
DISTINCT column, no GROUP BY), so the call raises instead of returning
the messages of the n most-recently-active sessions; the intended
semantics on a one-message store would return that message. -/
theorem getLastNConversations_binder_error (tbl : List ConversationRow) (n : Nat) :
    getLastNConversations tbl n = .error duckdbBinderMsg ∧
    recentSessionsSpec [demoMsg] 2 = [demoMsg] :=
  ⟨rfl, by decide⟩

/-- C4 (confirmed): an unparseable collaborator response does not abort
the cycle — it commits a long-term entry carrying the fixed sentinel
summary with empty topic and insight lists and still marks the window
consolidated; and any topics or keyInsights field that is not a list is
coerced to the empty list. -/
theorem consolidate_malformed_response_selfheal (st : Store) (todayStart : Int)
    (newId : String) (now : Int) (todayStr : String) (v : JsonValue) (c : ConversationRow)
    (h : getTodaysConversations st.conversations todayStart ≠ [])
    (hv : isStringArray v = false)
    (hc : c ∈ (consolidate st todayStart none true newId now todayStr).store.conversations)
    (hts : todayStart ≤ c.timestamp) :
    (consolidate st todayStart none true newId now todayStr).error = none ∧
    (consolidate st todayStart none true newId now todayStr).store.longTerm =
      st.longTerm ++ [mkLongTermRow newId now "Failed to parse consolidation response" [] []
        ("Conversations from " ++ todayStr)] ∧
    c.consolidated = true ∧
    (performConsolidation (some (.jobj [("topics", v), ("keyInsights", v)])) todayStr).topics
      = [] ∧
    (performConsolidation (some (.jobj [("topics", v), ("keyInsights", v)]))
      todayStr).keyInsights = [] := by
  have hcons : consolidate st todayStart none true newId now todayStr =
      { store :=
          { conversations := (markConversationsAsConsolidated st.conversations todayStart).2,
            longTerm := st.longTerm ++ [mkLongTermRow newId now
              "Failed to parse consolidation response" [] []
              ("Conversations from " ++ todayStr)] },
        error := none } := by
    unfold consolidate
    rw [if_neg h]
    rfl
  rw [hcons] at hc
  rw [hcons]
  exact ⟨rfl, rfl, mark_consolidates_window st.conversations todayStart c hc hts,
    coerce_nonarray v hv, coerce_nonarray v hv⟩

/-- Witness for the C4 theorem at a concrete one-message store and a
string-valued (non-list) field. -/
theorem consolidate_malformed_response_selfheal_witness :
    getTodaysConversations demoStore.conversations 0 ≠ [] ∧
    isStringArray (JsonValue.jstr "oops") = false ∧
    { demoMsg with consolidated := true } ∈
      (consolidate demoStore 0 none true "ltm-9" 50 "2025-01-01").store.conversations ∧
    (0 : Int) ≤ ConversationRow.timestamp { demoMsg with consolidated := true } ∧
    ((consolidate demoStore 0 none true "ltm-9" 50 "2025-01-01").error = none ∧
    (consolidate demoStore 0 none true "ltm-9" 50 "2025-01-01").store.longTerm =
      demoStore.longTerm ++ [mkLongTermRow "ltm-9" 50
        "Failed to parse consolidation response" [] [] ("Conversations from 2025-01-01")] ∧
    ConversationRow.consolidated { demoMsg with consolidated := true } = true ∧
    (performConsolidation (some (.jobj [("topics", JsonValue.jstr "oops"),
      ("keyInsights", JsonValue.jstr "oops")])) "2025-01-01").topics = [] ∧
    (performConsolidation (some (.jobj [("topics", JsonValue.jstr "oops"),
      ("keyInsights", JsonValue.jstr "oops")])) "2025-01-01").keyInsights = []) :=
  ⟨by decide, by decide, by decide, by decide,
    consolidate_malformed_response_selfheal demoStore 0 "ltm-9" 50 "2025-01-01"
      (JsonValue.jstr "oops") { demoMsg with consolidated := true }
      (by decide) (by decide) (by decide) (by decide)⟩

/-- C5 (confirmed): a consolidation cycle over an empty unconsolidated
window terminates successfully with zero side effects — no long-term
entry, no marking, store unchanged. -/
theorem consolidate_empty_noop (st : Store) (todayStart : Int) (llmParse : Option JsonValue)
    (putOk : Bool) (newId : String) (now : Int) (todayStr : String)
    (h : getTodaysConversations st.conversations todayStart = []) :
    consolidate st todayStart llmParse putOk newId now todayStr =
      { store := st, error := none } := by
  unfold consolidate
  rw [if_pos h]

/-- Witness for the C5 theorem at a store whose only message is already
consolidated. -/
theorem consolidate_empty_noop_witness :
    getTodaysConversations (Store.mk [{ demoMsg with consolidated := true }] []).conversations 0
      = [] ∧
    consolidate (Store.mk [{ demoMsg with consolidated := true }] []) 0 none true "ltm-9" 50
      "2025-01-01" =
      { store := Store.mk [{ demoMsg with consolidated := true }] [], error := none } :=
  ⟨by decide, consolidate_empty_noop (Store.mk [{ demoMsg with consolidated := true }] [])
    0 none true "ltm-9" 50 "2025-01-01" (by decide)⟩

/-- C6 counterexample: a search with no limit over 101 stored rows
returns all 101 of them — more than the documented engine-wide default
cap of 20 and more than the documented maximum of 100 — so absence of
limit does mean an unlimited result at the storage layer. -/
theorem search_default_cap_refuted :
    manyRows.length = 101 ∧
    (searchConversations manyRows emptyFilter).length = 101 := by
  constructor
  · rfl
  · rw [search_empty_filter_eq, length_sortDesc]
    rfl

/-- C6 (amended): the storage-layer search applies no cap at all when
the limit filter is absent (the result has the size of the whole match
set); the bounding happens one layer up, in the search_memory tool
handler, which always passes an explicit limit clamped to the range 1
to 100 and defaulting to 20. -/
theorem search_uncapped_and_tool_layer_cap (tbl : List ConversationRow) (l : Option Nat) :
    (searchConversations tbl emptyFilter).length = tbl.length ∧
    1 ≤ searchMemoryLimit l ∧ searchMemoryLimit l ≤ 100 ∧ searchMemoryLimit none = 20 := by
  refine ⟨?_, ?_, ?_, rfl⟩
  · rw [search_empty_filter_eq, length_sortDesc]
  · exact le_min (le_max_right _ _) (by norm_num)
  · exact min_le_right _ _

/-- C7 counterexample: with endDate present and equal to 0, the entry
with timestamp endDate plus one is returned rather than excluded — the
JavaScript truthiness test treats a zero bound as absent. -/
theorem zero_end_bound_refuted :
    tsOneMsg.timestamp = 0 + 1 ∧
    searchConversations [tsOneMsg]
      { query := none, topics := none, startDate := none, endDate := some 0, limit := none } =
      [tsOneMsg] := by
  decide

/-- C7 (amended): for present and NONZERO time bounds the search is
inclusive on both ends — an entry is returned exactly when its
timestamp lies in the closed interval — while a zero bound behaves
exactly like an absent one (unbounded on that side). -/
theorem search_time_bounds_inclusive_nonzero (tbl : List ConversationRow) (s e : Int)
    (x : ConversationRow) (hs : s ≠ 0) (he : e ≠ 0) :
    (x ∈ searchConversations tbl
        { query := none, topics := none, startDate := some s, endDate := some e,
          limit := none } ↔
      x ∈ tbl ∧ s ≤ x.timestamp ∧ x.timestamp ≤ e) ∧
    searchConversations tbl
        { query := none, topics := none, startDate := none, endDate := some 0, limit := none } =
      searchConversations tbl emptyFilter := by
  constructor
  · have hm : ∀ c : ConversationRow,
        convMatches ⟨none, none, some s, some e, none⟩ c =
          (decide (s ≤ c.timestamp) && decide (c.timestamp ≤ e)) := by
      intro c
      simp [convMatches, strTruthy, intTruthy, hs, he]
    simp only [searchConversations, applyLimit_none, mem_sortDesc, List.mem_filter, hm,
      Bool.and_eq_true, decide_eq_true_eq, and_assoc]
  · rfl

/-- Witness for the C7 theorem: bounds 1 and 5 around a timestamp-5
entry, and the zero-bound equivalence on the same table. -/
theorem search_time_bounds_inclusive_nonzero_witness :
    ((1 : Int) ≠ 0) ∧ ((5 : Int) ≠ 0) ∧
    ((demoMsg ∈ searchConversations [demoMsg]
        { query := none, topics := none, startDate := some 1, endDate := some 5,
          limit := none } ↔
      demoMsg ∈ [demoMsg] ∧ (1 : Int) ≤ demoMsg.timestamp ∧ demoMsg.timestamp ≤ 5) ∧
    searchConversations [demoMsg]
        { query := none, topics := none, startDate := none, endDate := some 0, limit := none } =
      searchConversations [demoMsg] emptyFilter) :=
  ⟨by decide, by decide,
    search_time_bounds_inclusive_nonzero [demoMsg] 1 5 demoMsg (by decide) (by decide)⟩

/-- C8 (code bug): clearShortTermMemory removes every message entry
unconditionally, regardless of consolidation state, and returns the
prior count; afterwards the store is empty (the spec-level
recentSessions of the empty store is empty), but the shipped get_recent
cannot return that empty result because its first query is rejected by
the SQL binder even on an empty table. -/
theorem clearShortTermMemory_clears_all (tbl : List ConversationRow) :
    clearShortTermMemory tbl = (tbl.length, ([] : List ConversationRow)) ∧
    getLastNConversations ([] : List ConversationRow) 2 = .error duckdbBinderMsg ∧
    recentSessionsSpec ([] : List ConversationRow) 2 = [] :=
  ⟨rfl, rfl, rfl⟩

/-- C9 (code bug): the process holds no lock or single-flight guard
around the Consolidation Engine — both the cron callback and the
consolidate_memory handler invoke consolidate() directly — so in the
interleaving where the second trigger selects the window before the
first trigger marks it, both cycles run to completion (neither is
rejected nor queued) and the same message is consolidated into two
long-term entries. -/
theorem concurrent_triggers_both_run :
    raceResult.t1.pc = CyclePC.done ∧ raceResult.t2.pc = CyclePC.done ∧
    raceResult.store.longTerm.length = 2 ∧
    raceResult.t1.selected = [demoMsg] ∧ raceResult.t2.selected = [demoMsg] ∧
    raceResult.store.longTerm.map (fun m => m.consolidatedFrom) =
      ["Conversations from 2025-01-01", "Conversations from 2025-01-01"] := by
  decide

/-- C10 (confirmed): searchConversations never consults the topics
filter — two filter specifications differing only in topics yield the
same short-term result on every table. -/
theorem searchConversations_ignores_topics (tbl : List ConversationRow) (f : SearchFilters)
    (t : Option (List String)) :
    searchConversations tbl { f with topics := t } = searchConversations tbl f := by
  cases f
  rfl

end BrainMCP
